import Mathlib

/-!
Shallow embedding of `service/explorer/objects.go` of Cloudreve:
the batch object-mutation and ephemeral-archive-delivery subsystem
(operations `Archive`, `Delete`, `Move`, `Copy`, `Rename`).

External collaborators (the filesystem abstraction, the serializer error
codes, the ephemeral cache, the URL signer, the random token generator)
are not part of the source file; they are modelled as oracles or, where
the claims depend on their behaviour, from the spec's description, and
those definitions say so in their doc comments.
-/

/-- `ItemService` from objects.go: a client selection of file IDs and
directory IDs (Go `[]uint`, modelled as lists of naturals). -/
structure ItemService where
  Items : List Nat
  Dirs  : List Nat
deriving Repr, DecidableEq

/-- `ItemMoveService` from objects.go: source directory, selection, destination. -/
structure ItemMoveService where
  SrcDir : String
  Src    : ItemService
  Dst    : String
deriving Repr, DecidableEq

/-- `ItemRenameService` from objects.go: selection and the new name. -/
structure ItemRenameService where
  Src     : ItemService
  NewName : String
deriving Repr, DecidableEq

/-- `serializer.Response` envelope: `code = 0` means success; `data` is the
signed URL string for Archive (absent on every other path here). -/
structure Response where
  Code : Int
  Data : Option String
  Msg  : String
deriving Repr, DecidableEq

/-- Modelled from the spec: the serializer's error taxonomy. The numeric
constants live in `pkg/serializer`, outside this source file; the spec only
requires that the kinds be distinct and non-zero (`code = 0` meaning
success). `CodePolicyNotAllowed` is the configuration/context error,
`CodeGroupNotAllowed` the permission error, `CodeParamErr` the parameter
error, `CodeNotSet` the generic operation failure, `CodeIOFailed` the
cache-write failure. -/
def CodeNotSet : Int := -1

/-- Modelled from the spec: parameter-error code (cardinality violation). -/
def CodeParamErr : Int := 40001

/-- Modelled from the spec: filesystem-context construction failure code. -/
def CodePolicyNotAllowed : Int := 40002

/-- Modelled from the spec: group-capability permission-error code. -/
def CodeGroupNotAllowed : Int := 40003

/-- Modelled from the spec: cache-write failure code. -/
def CodeIOFailed : Int := 50002

/-- `serializer.Err(code, msg, err)`: an error response with the given code
and message and no data. -/
def serializerErr (code : Int) (msg : String) : Response :=
  { Code := code, Data := none, Msg := msg }

/-- `serializer.ParamErr(msg, err)`: a parameter error response. -/
def serializerParamErr (msg : String) : Response :=
  serializerErr CodeParamErr msg

/-- A call made to the external filesystem delegate, with the exact
arguments forwarded to it. Recording the calls lets theorems state that a
delegate was or was not invoked, and with which arguments. -/
inductive DelegateCall where
  | compress (dirs items : List Nat)
  | delete (dirs items : List Nat)
  | move (dirs items : List Nat) (srcDir dst : String)
  | copy (dirs items : List Nat) (srcDir dst : String)
  | rename (dirs items : List Nat) (newName : String)
deriving Repr, DecidableEq

/-- The filesystem abstraction (`pkg/filesystem`), an external collaborator:
the user's group capability flag plus one oracle per delegate capability.
A mutation delegate returns `none` on success or `some msg` on failure;
`compress` returns the physical archive handle or an error message. -/
structure FileSystem where
  ArchiveDownloadEnabled : Bool
  compress : List Nat → List Nat → Except String String
  delete : List Nat → List Nat → Option String
  move : List Nat → List Nat → String → String → Option String
  copy : List Nat → List Nat → String → String → Option String
  rename : List Nat → List Nat → String → Option String

/-- Modelled from the spec: the ephemeral token cache (`pkg/cache`), a
key-value store with per-entry expiration. An entry inserted at time `now`
with TTL `ttl` carries the absolute expiry `now + ttl`. -/
structure CacheEntry where
  key : String
  value : String
  expiresAt : Int
deriving Repr, DecidableEq

/-- The cache state: newest entries first. -/
def Cache : Type := List CacheEntry

/-- Modelled from the spec: inserting into the ephemeral cache with a TTL,
`cache.Set(key, value, ttl)` performed at time `now`. -/
def cacheSet (c : Cache) (key value : String) (ttl : Int) (now : Int) : Cache :=
  ⟨key, value, now + ttl⟩ :: c

/-- Modelled from the spec: reading the ephemeral cache at time `t`; an
entry is visible strictly before its expiry (present at `T-1` after
insertion with TTL reaching `T`, absent at `T+1`). -/
def cacheGet (c : Cache) (key : String) (t : Int) : Option String :=
  match c.find? (fun e => e.key == key) with
  | some e => if t < e.expiresAt then some e.value else none
  | none => none

/-- Modelled from the spec: `util.RandStringRunes`'s alphabet of 62 runes. -/
def letterRunes : List Char :=
  "abcdefghijklmnopqrstuvwxyzABCDEFGHIJKLMNOPQRSTUVWXYZ1234567890".toList

/-- Modelled from the spec: `util.RandStringRunes(n)` (from `pkg/util`,
outside this file) returns `n` random characters from a wide alphabet;
the randomness source is modelled as a seed. -/
def RandStringRunes (seed : Nat) (n : Nat) : String :=
  String.mk ((List.range n).map (fun i => letterRunes.getD ((seed + i) % letterRunes.length) 'a'))

/-- Modelled from the spec: the signed URI produced by `auth.SignURI`
(from `pkg/auth`, outside this file): the path, the expiry it was signed
for, and the signature over both. -/
structure SignedURI where
  path : String
  expires : Int
  sig : String
deriving Repr, DecidableEq

/-- Modelled from the spec: the successful result of
`auth.SignURI(path, expires)` — a tamper-evident signature (a MAC over the
path and expiry, abstracted here) attached to the path. Whether the call
fails is an oracle of the environment, since the signer is external. -/
def SignURIok (secret : String) (path : String) (expires : Int) : SignedURI :=
  { path := path, expires := expires
    sig := "sign=" ++ secret ++ ":" ++ toString expires }

/-- Modelled from the spec: `siteURL.ResolveReference(signedURI).String()` —
resolving the signed absolute path, with its signature parameters as the
query string, against the configured site base URL. -/
def resolveReference (siteBase : String) (u : SignedURI) : String :=
  siteBase ++ u.path ++ "?" ++ u.sig ++ "&expires=" ++ toString u.expires

/-- The environment of one `Archive` request: every external input the
source consults, in program order. `fsResult` is
`filesystem.NewFileSystemFromContext(c)`; `siteURLParse` is
`url.Parse(model.GetSettingByName("siteURL"))`; `seed` feeds
`util.RandStringRunes`; `signOk` is whether `auth.SignURI` succeeds (it is
external and fallible; on failure it returns a nil URI); `now` is
`time.Now().Unix()`; `cacheSetErr` is the error of `cache.Set`, if any. -/
structure ArchiveEnv where
  fsResult : Except String FileSystem
  siteURLParse : Except String String
  seed : Nat
  secret : String
  signOk : Bool
  now : Int
  cacheSetErr : Option String

/-- The observable result of one `Archive` call: the response (`none` when
the call panics — in the source a nil signed URI is dereferenced by
`ResolveReference` when the ignored `auth.SignURI` error is non-nil), the
delegate calls made, and the cache state after the call. -/
structure ArchiveResult where
  outcome : Option Response
  calls : List DelegateCall
  cache : Cache

/-- `ItemService.Archive` from objects.go, line by line:
construct the filesystem; check the group's `ArchiveDownloadEnabled`
capability; `fs.Compress(ctx, service.Dirs, service.Items)`; parse the site
URL; `zipID := util.RandStringRunes(16)`; `auth.SignURI("/api/v3/file/archive/"
++ zipID ++ "/archive.zip", time.Now().Unix()+30)` whose error the source
captures but never checks before `siteURL.ResolveReference(signedURI)`;
`cache.Set("archive_"+zipID, zipFile, 30)`; success response carrying the
final URL. -/
def ItemService.Archive (service : ItemService) (env : ArchiveEnv) (c0 : Cache) : ArchiveResult :=
  match env.fsResult with
  | .error e => ⟨some (serializerErr CodePolicyNotAllowed e), [], c0⟩
  | .ok fs =>
    if !fs.ArchiveDownloadEnabled then
      ⟨some (serializerErr CodeGroupNotAllowed "当前用户组无法进行此操作"), [], c0⟩
    else
      match fs.compress service.Dirs service.Items with
      | .error _ =>
        ⟨some (serializerErr CodeNotSet "无法创建压缩文件"),
          [.compress service.Dirs service.Items], c0⟩
      | .ok zipFile =>
        match env.siteURLParse with
        | .error _ =>
          ⟨some (serializerErr CodeNotSet "无法解析站点URL"),
            [.compress service.Dirs service.Items], c0⟩
        | .ok siteURL =>
          let zipID := RandStringRunes env.seed 16
          if !env.signOk then
            -- the source discards the SignURI error; the nil signed URI is
            -- dereferenced inside ResolveReference
            ⟨none, [.compress service.Dirs service.Items], c0⟩
          else
            let signedURI := SignURIok env.secret
              ("/api/v3/file/archive/" ++ zipID ++ "/archive.zip") (env.now + 30)
            let finalURL := resolveReference siteURL signedURI
            match env.cacheSetErr with
            | some _ =>
              ⟨some (serializerErr CodeIOFailed "无法写入缓存"),
                [.compress service.Dirs service.Items], c0⟩
            | none =>
              ⟨some { Code := 0, Data := some finalURL, Msg := "" },
                [.compress service.Dirs service.Items],
                cacheSet c0 ("archive_" ++ zipID) zipFile 30 env.now⟩

/-- The environment of one mutation request: the result of
`filesystem.NewFileSystemFromContext(c)`. -/
structure OpEnv where
  fsResult : Except String FileSystem

/-- The observable result of one mutation call. -/
structure OpResult where
  resp : Response
  calls : List DelegateCall
deriving Repr, DecidableEq

/-- `ItemService.Delete` from objects.go: construct the filesystem, then
`fs.Delete(ctx, service.Dirs, service.Items)`; no selection validation. -/
def ItemService.Delete (service : ItemService) (env : OpEnv) : OpResult :=
  match env.fsResult with
  | .error e => ⟨serializerErr CodePolicyNotAllowed e, []⟩
  | .ok fs =>
    match fs.delete service.Dirs service.Items with
    | some e => ⟨serializerErr CodeNotSet e, [.delete service.Dirs service.Items]⟩
    | none => ⟨{ Code := 0, Data := none, Msg := "" }, [.delete service.Dirs service.Items]⟩

/-- `ItemMoveService.Move` from objects.go: construct the filesystem, then
`fs.Move(ctx, src.Dirs, src.Items, service.SrcDir, service.Dst)`; no
selection validation. -/
def ItemMoveService.Move (service : ItemMoveService) (env : OpEnv) : OpResult :=
  match env.fsResult with
  | .error e => ⟨serializerErr CodePolicyNotAllowed e, []⟩
  | .ok fs =>
    match fs.move service.Src.Dirs service.Src.Items service.SrcDir service.Dst with
    | some e =>
      ⟨serializerErr CodeNotSet e,
        [.move service.Src.Dirs service.Src.Items service.SrcDir service.Dst]⟩
    | none =>
      ⟨{ Code := 0, Data := none, Msg := "" },
        [.move service.Src.Dirs service.Src.Items service.SrcDir service.Dst]⟩

/-- `ItemMoveService.Copy` from objects.go: first the cardinality check
`len(service.Src.Items)+len(service.Src.Dirs) > 1` returning a parameter
error, then filesystem construction, then
`fs.Copy(ctx, src.Dirs, src.Items, service.SrcDir, service.Dst)`. -/
def ItemMoveService.Copy (service : ItemMoveService) (env : OpEnv) : OpResult :=
  if service.Src.Items.length + service.Src.Dirs.length > 1 then
    ⟨serializerParamErr "只能复制一个对象", []⟩
  else
    match env.fsResult with
    | .error e => ⟨serializerErr CodePolicyNotAllowed e, []⟩
    | .ok fs =>
      match fs.copy service.Src.Dirs service.Src.Items service.SrcDir service.Dst with
      | some e =>
        ⟨serializerErr CodeNotSet e,
          [.copy service.Src.Dirs service.Src.Items service.SrcDir service.Dst]⟩
      | none =>
        ⟨{ Code := 0, Data := none, Msg := "" },
          [.copy service.Src.Dirs service.Src.Items service.SrcDir service.Dst]⟩

/-- `ItemRenameService.Rename` from objects.go: first the cardinality check
`len(service.Src.Items)+len(service.Src.Dirs) > 1` returning a parameter
error, then filesystem construction, then
`fs.Rename(ctx, src.Dirs, src.Items, service.NewName)`. -/
def ItemRenameService.Rename (service : ItemRenameService) (env : OpEnv) : OpResult :=
  if service.Src.Items.length + service.Src.Dirs.length > 1 then
    ⟨serializerParamErr "只能操作一个对象", []⟩
  else
    match env.fsResult with
    | .error e => ⟨serializerErr CodePolicyNotAllowed e, []⟩
    | .ok fs =>
      match fs.rename service.Src.Dirs service.Src.Items service.NewName with
      | some e =>
        ⟨serializerErr CodeNotSet e,
          [.rename service.Src.Dirs service.Src.Items service.NewName]⟩
      | none =>
        ⟨{ Code := 0, Data := none, Msg := "" },
          [.rename service.Src.Dirs service.Src.Items service.NewName]⟩

/-! ## Helper lemmas -/

/-- Inversion of a successful `Archive` call: if the outcome is a response
with code 0, every oracle in the chain succeeded, the response carries the
resolved signed URL, and the cache gained the token binding. -/
theorem archive_success_inv (s : ItemService) (env : ArchiveEnv) (c0 : Cache) (r : Response)
    (h : (ItemService.Archive s env c0).outcome = some r) (h0 : r.Code = 0) :
    ∃ fs zipFile siteURL, env.fsResult = .ok fs ∧ fs.ArchiveDownloadEnabled = true ∧
      fs.compress s.Dirs s.Items = .ok zipFile ∧ env.siteURLParse = .ok siteURL ∧
      env.signOk = true ∧ env.cacheSetErr = none ∧
      r = ⟨0, some (resolveReference siteURL (SignURIok env.secret
            ("/api/v3/file/archive/" ++ RandStringRunes env.seed 16 ++ "/archive.zip")
            (env.now + 30))), ""⟩ ∧
      ItemService.Archive s env c0 =
        ⟨some r, [.compress s.Dirs s.Items],
          cacheSet c0 ("archive_" ++ RandStringRunes env.seed 16) zipFile 30 env.now⟩ := by
  unfold ItemService.Archive at h ⊢
  cases hfs : env.fsResult with
  | error e =>
    simp [hfs] at h
    rw [← h] at h0
    simp [serializerErr, CodePolicyNotAllowed] at h0
  | ok fs =>
    cases hcap : fs.ArchiveDownloadEnabled with
    | false =>
      simp [hfs, hcap] at h
      rw [← h] at h0
      simp [serializerErr, CodeGroupNotAllowed] at h0
    | true =>
      cases hcmp : fs.compress s.Dirs s.Items with
      | error e =>
        simp [hfs, hcap, hcmp] at h
        rw [← h] at h0
        simp [serializerErr, CodeNotSet] at h0
      | ok zipFile =>
        cases hsite : env.siteURLParse with
        | error e =>
          simp [hfs, hcap, hcmp, hsite] at h
          rw [← h] at h0
          simp [serializerErr, CodeNotSet] at h0
        | ok siteURL =>
          cases hsign : env.signOk with
          | false => simp [hfs, hcap, hcmp, hsite, hsign] at h
          | true =>
            cases hcache : env.cacheSetErr with
            | some e =>
              simp [hfs, hcap, hcmp, hsite, hsign, hcache] at h
              rw [← h] at h0
              simp [serializerErr, CodeIOFailed] at h0
            | none =>
              simp [hfs, hcap, hcmp, hsite, hsign, hcache] at h
              refine ⟨fs, zipFile, siteURL, ?_, ?_, ?_, ?_, ?_, ?_, ?_, ?_⟩ <;>
                first
                  | rfl
                  | exact hcap
                  | exact hcmp
                  | exact h.symm
                  | simp [hcap, hcmp, hsite, hsign, hcache, ← h]

/-- The generated token has exactly the requested length. -/
theorem randStringRunes_length (seed n : Nat) : (RandStringRunes seed n).length = n := by
  simp [RandStringRunes, String.length]

/-- Reading back a freshly inserted cache entry before its expiry. -/
theorem cacheGet_cacheSet_live (c : Cache) (key value : String) (ttl now t : Int)
    (h : t < now + ttl) : cacheGet (cacheSet c key value ttl now) key t = some value := by
  simp [cacheGet, cacheSet, List.find?, h]

/-- A freshly inserted cache entry is gone at or after its expiry. -/
theorem cacheGet_cacheSet_dead (c : Cache) (key value : String) (ttl now t : Int)
    (h : ¬ t < now + ttl) : cacheGet (cacheSet c key value ttl now) key t = none := by
  simp [cacheGet, cacheSet, List.find?, h]

/-! ## Concrete fixtures for witnesses and counterexamples -/

/-- A filesystem oracle whose every delegate succeeds and whose group has
the archive capability; used to evaluate the operations on concrete inputs. -/
def fsAllOk : FileSystem :=
  { ArchiveDownloadEnabled := true
    compress := fun _ _ => .ok "zipfile-handle"
    delete := fun _ _ => none
    move := fun _ _ _ _ => none
    copy := fun _ _ _ _ => none
    rename := fun _ _ _ => none }

/-- An Archive environment in which every external step succeeds. -/
def envAllOk : ArchiveEnv :=
  { fsResult := .ok fsAllOk, siteURLParse := .ok "https://site", seed := 0
    secret := "k", signOk := true, now := 100, cacheSetErr := none }

/-- The filesystem of a group without the archive-download capability. -/
def fsNoArchive : FileSystem := { fsAllOk with ArchiveDownloadEnabled := false }

/-- An Archive environment whose group lacks the archive capability. -/
def envNoArchive : ArchiveEnv := { envAllOk with fsResult := .ok fsNoArchive }

/-! ## Claim theorems -/

/-- C1 (amended): for every selection with `|dirs| + |items| > 1`, Copy and
Rename return a ParameterError and never invoke the filesystem delegate.
(The source checks `> 1`, not `!= 1`: the empty selection passes the check,
see the counterexample.) -/
theorem copy_rename_multi_target_param_error
    (ms : ItemMoveService) (rs : ItemRenameService) (envC envR : OpEnv)
    (hm : ms.Src.Dirs.length + ms.Src.Items.length > 1)
    (hr : rs.Src.Dirs.length + rs.Src.Items.length > 1) :
    (ItemMoveService.Copy ms envC).resp.Code = CodeParamErr ∧
    (ItemMoveService.Copy ms envC).calls = [] ∧
    (ItemRenameService.Rename rs envR).resp.Code = CodeParamErr ∧
    (ItemRenameService.Rename rs envR).calls = [] := by
  have hm' : ms.Src.Items.length + ms.Src.Dirs.length > 1 := by omega
  have hr' : rs.Src.Items.length + rs.Src.Dirs.length > 1 := by omega
  unfold ItemMoveService.Copy ItemRenameService.Rename
  rw [if_pos hm', if_pos hr']
  exact ⟨rfl, rfl, rfl, rfl⟩

/-- C1 witness: a selection of two items triggers the parameter error on
both Copy and Rename with no delegate call. -/
theorem copy_rename_multi_target_param_error_witness :
    ((⟨"/s", ⟨[1, 2], []⟩, "/d"⟩ : ItemMoveService).Src.Dirs.length +
      (⟨"/s", ⟨[1, 2], []⟩, "/d"⟩ : ItemMoveService).Src.Items.length > 1) ∧
    ((⟨⟨[3, 4], []⟩, "n"⟩ : ItemRenameService).Src.Dirs.length +
      (⟨⟨[3, 4], []⟩, "n"⟩ : ItemRenameService).Src.Items.length > 1) ∧
    ((ItemMoveService.Copy ⟨"/s", ⟨[1, 2], []⟩, "/d"⟩ ⟨.error "x"⟩).resp.Code = CodeParamErr ∧
     (ItemMoveService.Copy ⟨"/s", ⟨[1, 2], []⟩, "/d"⟩ ⟨.error "x"⟩).calls = [] ∧
     (ItemRenameService.Rename ⟨⟨[3, 4], []⟩, "n"⟩ ⟨.error "y"⟩).resp.Code = CodeParamErr ∧
     (ItemRenameService.Rename ⟨⟨[3, 4], []⟩, "n"⟩ ⟨.error "y"⟩).calls = []) :=
  ⟨by decide, by decide,
    copy_rename_multi_target_param_error ⟨"/s", ⟨[1, 2], []⟩, "/d"⟩ ⟨⟨[3, 4], []⟩, "n"⟩
      ⟨.error "x"⟩ ⟨.error "y"⟩ (by decide) (by decide)⟩

/-- C1 counterexample: with the empty selection (`|dirs| + |items| = 0 ≠ 1`)
Copy does not return a parameter error: it invokes the filesystem delegate
with two empty sets and, when the delegate succeeds, returns code 0. -/
theorem copy_empty_selection_invokes_delegate :
    (ItemMoveService.Copy ⟨"/src", ⟨[], []⟩, "/dst"⟩ ⟨.ok fsAllOk⟩).resp.Code = 0 ∧
    (ItemMoveService.Copy ⟨"/src", ⟨[], []⟩, "/dst"⟩ ⟨.ok fsAllOk⟩).calls =
      [DelegateCall.copy [] [] "/src" "/dst"] ∧
    (0 : Int) ≠ CodeParamErr :=
  ⟨rfl, rfl, by decide⟩

/-- C2: when the acting user's group capability `ArchiveDownloadEnabled` is
false, Archive returns the permission error (a kind distinct from the
generic operation failure and from success) and makes no delegate call and
no cache change. -/
theorem archive_capability_denied (s : ItemService) (env : ArchiveEnv) (c0 : Cache)
    (fs : FileSystem) (hfs : env.fsResult = .ok fs)
    (hcap : fs.ArchiveDownloadEnabled = false) :
    (ItemService.Archive s env c0).outcome =
      some (serializerErr CodeGroupNotAllowed "当前用户组无法进行此操作") ∧
    (ItemService.Archive s env c0).calls = [] ∧
    (ItemService.Archive s env c0).cache = c0 ∧
    CodeGroupNotAllowed ≠ CodeNotSet ∧ CodeGroupNotAllowed ≠ 0 := by
  have harch : ItemService.Archive s env c0 =
      ⟨some (serializerErr CodeGroupNotAllowed "当前用户组无法进行此操作"), [], c0⟩ := by
    unfold ItemService.Archive
    rw [hfs]
    simp [hcap]
  rw [harch]
  exact ⟨rfl, rfl, rfl, by decide, by decide⟩

/-- C2 witness: the capability-denied path evaluated on a concrete request. -/
theorem archive_capability_denied_witness :
    envNoArchive.fsResult = .ok fsNoArchive ∧
    fsNoArchive.ArchiveDownloadEnabled = false ∧
    ((ItemService.Archive ⟨[3], [4]⟩ envNoArchive []).outcome =
      some (serializerErr CodeGroupNotAllowed "当前用户组无法进行此操作") ∧
     (ItemService.Archive ⟨[3], [4]⟩ envNoArchive []).calls = [] ∧
     (ItemService.Archive ⟨[3], [4]⟩ envNoArchive []).cache = [] ∧
     CodeGroupNotAllowed ≠ CodeNotSet ∧ CodeGroupNotAllowed ≠ 0) :=
  ⟨rfl, rfl, archive_capability_denied ⟨[3], [4]⟩ envNoArchive [] fsNoArchive rfl rfl⟩

/-- C3: every successful Archive call embeds a token of length ≥ 16 in the
returned URL, and immediately after the call that token's archive key is
bound in the ephemeral cache to the physical archive handle produced by
the compress delegate. -/
theorem archive_token_length_and_cached (s : ItemService) (env : ArchiveEnv) (c0 : Cache)
    (r : Response) (h : (ItemService.Archive s env c0).outcome = some r) (h0 : r.Code = 0) :
    (RandStringRunes env.seed 16).length ≥ 16 ∧
    ∃ fs zipFile siteURL, env.fsResult = .ok fs ∧
      fs.compress s.Dirs s.Items = .ok zipFile ∧
      r.Data = some (resolveReference siteURL (SignURIok env.secret
        ("/api/v3/file/archive/" ++ RandStringRunes env.seed 16 ++ "/archive.zip")
        (env.now + 30))) ∧
      cacheGet (ItemService.Archive s env c0).cache
        ("archive_" ++ RandStringRunes env.seed 16) env.now = some zipFile := by
  obtain ⟨fs, zipFile, siteURL, hfs, hcap, hcmp, hsite, hsign, hcache, hr, harch⟩ :=
    archive_success_inv s env c0 r h h0
  refine ⟨(randStringRunes_length env.seed 16).ge, fs, zipFile, siteURL, hfs, hcmp, ?_, ?_⟩
  · rw [hr]
  · rw [harch]
    exact cacheGet_cacheSet_live c0 _ zipFile 30 env.now env.now (by omega)

/-- C3 witness: a concrete all-success Archive call. -/
theorem archive_token_length_and_cached_witness :
    ((ItemService.Archive ⟨[5], []⟩ envAllOk []).outcome =
      some ⟨0, some (resolveReference "https://site" (SignURIok "k"
        ("/api/v3/file/archive/" ++ RandStringRunes 0 16 ++ "/archive.zip") 130)), ""⟩) ∧
    ((⟨0, some (resolveReference "https://site" (SignURIok "k"
        ("/api/v3/file/archive/" ++ RandStringRunes 0 16 ++ "/archive.zip") 130)), ""⟩ :
      Response).Code = 0) ∧
    ((RandStringRunes envAllOk.seed 16).length ≥ 16 ∧
     ∃ fs zipFile siteURL, envAllOk.fsResult = .ok fs ∧
       fs.compress ([] : List Nat) [5] = .ok zipFile ∧
       (some (resolveReference "https://site" (SignURIok "k"
         ("/api/v3/file/archive/" ++ RandStringRunes 0 16 ++ "/archive.zip") 130)) :
           Option String) =
         some (resolveReference siteURL (SignURIok envAllOk.secret
           ("/api/v3/file/archive/" ++ RandStringRunes envAllOk.seed 16 ++ "/archive.zip")
           (envAllOk.now + 30))) ∧
       cacheGet (ItemService.Archive ⟨[5], []⟩ envAllOk []).cache
         ("archive_" ++ RandStringRunes envAllOk.seed 16) envAllOk.now = some zipFile) :=
  ⟨rfl, rfl, archive_token_length_and_cached ⟨[5], []⟩ envAllOk [] _ rfl rfl⟩

/-- An Archive environment in which the external URL signer fails; the
source captures that error but never checks it. -/
def envSignFail : ArchiveEnv := { envAllOk with signOk := false }

/-- C4: code bug. With compression successful and the URL-signing step
reporting an error, the call neither returns a code-0 success nor reports
failure with a non-zero code: the SignURI error is discarded and the nil
signed URI is dereferenced by ResolveReference (outcome `none` models the
panic), even though the compress delegate was already invoked. -/
theorem archive_sign_error_no_failure_response :
    (ItemService.Archive ⟨[7], []⟩ envSignFail []).outcome = none ∧
    (ItemService.Archive ⟨[7], []⟩ envSignFail []).calls = [DelegateCall.compress [] [7]] :=
  ⟨rfl, rfl⟩

/-- C5: if the cache write fails after compression (and signing) succeeded,
Archive returns the cache-failure response: a non-zero code, no data (so
the caller never receives the signed URL), and the cache is unchanged. -/
theorem archive_cache_write_failure_fail_closed (s : ItemService) (env : ArchiveEnv) (c0 : Cache)
    (fs : FileSystem) (zipFile siteURL e : String)
    (hfs : env.fsResult = .ok fs) (hcap : fs.ArchiveDownloadEnabled = true)
    (hcmp : fs.compress s.Dirs s.Items = .ok zipFile)
    (hsite : env.siteURLParse = .ok siteURL) (hsign : env.signOk = true)
    (hcache : env.cacheSetErr = some e) :
    (ItemService.Archive s env c0).outcome =
      some (serializerErr CodeIOFailed "无法写入缓存") ∧
    (serializerErr CodeIOFailed "无法写入缓存").Code ≠ 0 ∧
    (serializerErr CodeIOFailed "无法写入缓存").Data = none ∧
    (ItemService.Archive s env c0).cache = c0 := by
  have harch : ItemService.Archive s env c0 =
      ⟨some (serializerErr CodeIOFailed "无法写入缓存"), [.compress s.Dirs s.Items], c0⟩ := by
    unfold ItemService.Archive
    rw [hfs]
    simp [hcap, hcmp, hsite, hsign, hcache]
  rw [harch]
  exact ⟨rfl, by decide, rfl, rfl⟩

/-- An Archive environment in which the ephemeral cache write fails. -/
def envCacheFail : ArchiveEnv := { envAllOk with cacheSetErr := some "disk full" }

/-- C5 witness: the cache-write failure path evaluated concretely. -/
theorem archive_cache_write_failure_fail_closed_witness :
    envCacheFail.fsResult = .ok fsAllOk ∧
    fsAllOk.ArchiveDownloadEnabled = true ∧
    fsAllOk.compress ([] : List Nat) [9] = .ok "zipfile-handle" ∧
    envCacheFail.siteURLParse = .ok "https://site" ∧
    envCacheFail.signOk = true ∧
    envCacheFail.cacheSetErr = some "disk full" ∧
    ((ItemService.Archive ⟨[9], []⟩ envCacheFail []).outcome =
       some (serializerErr CodeIOFailed "无法写入缓存") ∧
     (serializerErr CodeIOFailed "无法写入缓存").Code ≠ 0 ∧
     (serializerErr CodeIOFailed "无法写入缓存").Data = none ∧
     (ItemService.Archive ⟨[9], []⟩ envCacheFail []).cache = []) :=
  ⟨rfl, rfl, rfl, rfl, rfl, rfl,
    archive_cache_write_failure_fail_closed ⟨[9], []⟩ envCacheFail [] fsAllOk
      "zipfile-handle" "https://site" "disk full" rfl rfl rfl rfl rfl rfl⟩

/-- C6: every successful Archive call signs the URL for expiry exactly
`now + 30`, and the inserted cache entry lives for exactly the matching
30-unit TTL: present one unit before expiry, absent one unit after. -/
theorem archive_expiry_and_ttl (s : ItemService) (env : ArchiveEnv) (c0 : Cache) (r : Response)
    (h : (ItemService.Archive s env c0).outcome = some r) (h0 : r.Code = 0) :
    ∃ zipFile siteURL,
      r.Data = some (resolveReference siteURL (SignURIok env.secret
        ("/api/v3/file/archive/" ++ RandStringRunes env.seed 16 ++ "/archive.zip")
        (env.now + 30))) ∧
      (SignURIok env.secret
        ("/api/v3/file/archive/" ++ RandStringRunes env.seed 16 ++ "/archive.zip")
        (env.now + 30)).expires = env.now + 30 ∧
      cacheGet (ItemService.Archive s env c0).cache
        ("archive_" ++ RandStringRunes env.seed 16) (env.now + 30 - 1) = some zipFile ∧
      cacheGet (ItemService.Archive s env c0).cache
        ("archive_" ++ RandStringRunes env.seed 16) (env.now + 30 + 1) = none := by
  obtain ⟨fs, zipFile, siteURL, hfs, hcap, hcmp, hsite, hsign, hcache, hr, harch⟩ :=
    archive_success_inv s env c0 r h h0
  refine ⟨zipFile, siteURL, by rw [hr], rfl, ?_, ?_⟩
  · rw [harch]
    exact cacheGet_cacheSet_live c0 _ zipFile 30 env.now _ (by omega)
  · rw [harch]
    exact cacheGet_cacheSet_dead c0 _ zipFile 30 env.now _ (by omega)

/-- C6 witness: boundary visibility of the cache entry on a concrete call. -/
theorem archive_expiry_and_ttl_witness :
    ((ItemService.Archive ⟨[5], []⟩ envAllOk []).outcome =
      some ⟨0, some (resolveReference "https://site" (SignURIok "k"
        ("/api/v3/file/archive/" ++ RandStringRunes 0 16 ++ "/archive.zip") 130)), ""⟩) ∧
    ((⟨0, some (resolveReference "https://site" (SignURIok "k"
        ("/api/v3/file/archive/" ++ RandStringRunes 0 16 ++ "/archive.zip") 130)), ""⟩ :
      Response).Code = 0) ∧
    (∃ zipFile siteURL,
      (some (resolveReference "https://site" (SignURIok "k"
        ("/api/v3/file/archive/" ++ RandStringRunes 0 16 ++ "/archive.zip") 130)) :
          Option String) =
        some (resolveReference siteURL (SignURIok envAllOk.secret
          ("/api/v3/file/archive/" ++ RandStringRunes envAllOk.seed 16 ++ "/archive.zip")
          (envAllOk.now + 30))) ∧
      (SignURIok envAllOk.secret
        ("/api/v3/file/archive/" ++ RandStringRunes envAllOk.seed 16 ++ "/archive.zip")
        (envAllOk.now + 30)).expires = envAllOk.now + 30 ∧
      cacheGet (ItemService.Archive ⟨[5], []⟩ envAllOk []).cache
        ("archive_" ++ RandStringRunes envAllOk.seed 16) (envAllOk.now + 30 - 1) = some zipFile ∧
      cacheGet (ItemService.Archive ⟨[5], []⟩ envAllOk []).cache
        ("archive_" ++ RandStringRunes envAllOk.seed 16) (envAllOk.now + 30 + 1) = none) :=
  ⟨rfl, rfl, archive_expiry_and_ttl ⟨[5], []⟩ envAllOk [] _ rfl rfl⟩

/-- C7: the data of every successful Archive response is the configured
site base URL resolved against the fixed-shape path
`/api/v3/file/archive/<token>/archive.zip` followed by the signature
parameters, where `<token>` is the freshly generated random token. -/
theorem archive_url_fixed_shape (s : ItemService) (env : ArchiveEnv) (c0 : Cache) (r : Response)
    (h : (ItemService.Archive s env c0).outcome = some r) (h0 : r.Code = 0) :
    ∃ siteURL, env.siteURLParse = .ok siteURL ∧
      r.Data = some (siteURL ++ ("/api/v3/file/archive/" ++ RandStringRunes env.seed 16 ++
        "/archive.zip") ++ "?" ++ ("sign=" ++ env.secret ++ ":" ++ toString (env.now + 30)) ++
        "&expires=" ++ toString (env.now + 30)) := by
  obtain ⟨fs, zipFile, siteURL, hfs, hcap, hcmp, hsite, hsign, hcache, hr, harch⟩ :=
    archive_success_inv s env c0 r h h0
  exact ⟨siteURL, hsite, by rw [hr]; rfl⟩

/-- C7 witness: the URL shape on a concrete successful call. -/
theorem archive_url_fixed_shape_witness :
    ((ItemService.Archive ⟨[5], []⟩ envAllOk []).outcome =
      some ⟨0, some (resolveReference "https://site" (SignURIok "k"
        ("/api/v3/file/archive/" ++ RandStringRunes 0 16 ++ "/archive.zip") 130)), ""⟩) ∧
    ((⟨0, some (resolveReference "https://site" (SignURIok "k"
        ("/api/v3/file/archive/" ++ RandStringRunes 0 16 ++ "/archive.zip") 130)), ""⟩ :
      Response).Code = 0) ∧
    (∃ siteURL, envAllOk.siteURLParse = .ok siteURL ∧
      (some (resolveReference "https://site" (SignURIok "k"
        ("/api/v3/file/archive/" ++ RandStringRunes 0 16 ++ "/archive.zip") 130)) :
          Option String) =
        some (siteURL ++ ("/api/v3/file/archive/" ++ RandStringRunes envAllOk.seed 16 ++
          "/archive.zip") ++ "?" ++ ("sign=" ++ envAllOk.secret ++ ":" ++
          toString (envAllOk.now + 30)) ++ "&expires=" ++ toString (envAllOk.now + 30))) :=
  ⟨rfl, rfl, archive_url_fixed_shape ⟨[5], []⟩ envAllOk [] _ rfl rfl⟩

/-- Delete always forwards the selection unmodified to the delegate once the
filesystem context exists, and never produces a parameter error. -/
theorem Delete_forwards (s : ItemService) (env : OpEnv) (fs : FileSystem)
    (hfs : env.fsResult = .ok fs) :
    (ItemService.Delete s env).calls = [.delete s.Dirs s.Items] ∧
    (ItemService.Delete s env).resp.Code ≠ CodeParamErr := by
  unfold ItemService.Delete
  rw [hfs]
  cases hres : fs.delete s.Dirs s.Items <;>
    simp [hres, serializerErr, CodeNotSet, CodeParamErr]

/-- Move always forwards the selection and both paths unmodified to the
delegate once the filesystem context exists, and never produces a
parameter error. -/
theorem Move_forwards (ms : ItemMoveService) (env : OpEnv) (fs : FileSystem)
    (hfs : env.fsResult = .ok fs) :
    (ItemMoveService.Move ms env).calls =
      [.move ms.Src.Dirs ms.Src.Items ms.SrcDir ms.Dst] ∧
    (ItemMoveService.Move ms env).resp.Code ≠ CodeParamErr := by
  unfold ItemMoveService.Move
  rw [hfs]
  cases hres : fs.move ms.Src.Dirs ms.Src.Items ms.SrcDir ms.Dst <;>
    simp [hres, serializerErr, CodeNotSet, CodeParamErr]

/-- C8: for every non-empty selection, Delete and Move forward exactly the
given IDs, unmodified and with no cardinality restriction, to the
corresponding delegate, and when the delegate succeeds the response is
code 0 with empty data. -/
theorem delete_move_forward_unmodified (s : ItemService) (ms : ItemMoveService)
    (envD envM : OpEnv) (fsD fsM : FileSystem)
    (hne : s.Dirs ≠ [] ∨ s.Items ≠ [])
    (hne' : ms.Src.Dirs ≠ [] ∨ ms.Src.Items ≠ [])
    (hfsD : envD.fsResult = .ok fsD) (hdel : fsD.delete s.Dirs s.Items = none)
    (hfsM : envM.fsResult = .ok fsM)
    (hmov : fsM.move ms.Src.Dirs ms.Src.Items ms.SrcDir ms.Dst = none) :
    ItemService.Delete s envD =
      ⟨{ Code := 0, Data := none, Msg := "" }, [.delete s.Dirs s.Items]⟩ ∧
    ItemMoveService.Move ms envM =
      ⟨{ Code := 0, Data := none, Msg := "" },
        [.move ms.Src.Dirs ms.Src.Items ms.SrcDir ms.Dst]⟩ := by
  constructor
  · unfold ItemService.Delete
    rw [hfsD]
    simp [hdel]
  · unfold ItemMoveService.Move
    rw [hfsM]
    simp [hmov]

/-- C8 witness: concrete heterogeneous selections succeed on Delete and Move. -/
theorem delete_move_forward_unmodified_witness :
    (([1, 2] : List Nat) ≠ [] ∨ ([3] : List Nat) ≠ []) ∧
    (([4] : List Nat) ≠ [] ∨ ([5, 6] : List Nat) ≠ []) ∧
    ((⟨.ok fsAllOk⟩ : OpEnv).fsResult = .ok fsAllOk) ∧
    (fsAllOk.delete [1, 2] [3] = none) ∧
    (fsAllOk.move [4] [5, 6] "/a" "/b" = none) ∧
    (ItemService.Delete ⟨[3], [1, 2]⟩ ⟨.ok fsAllOk⟩ =
      ⟨{ Code := 0, Data := none, Msg := "" }, [.delete [1, 2] [3]]⟩ ∧
     ItemMoveService.Move ⟨"/a", ⟨[5, 6], [4]⟩, "/b"⟩ ⟨.ok fsAllOk⟩ =
      ⟨{ Code := 0, Data := none, Msg := "" }, [.move [4] [5, 6] "/a" "/b"]⟩) :=
  ⟨by simp, by simp, rfl, rfl, rfl,
    delete_move_forward_unmodified ⟨[3], [1, 2]⟩ ⟨"/a", ⟨[5, 6], [4]⟩, "/b"⟩
      ⟨.ok fsAllOk⟩ ⟨.ok fsAllOk⟩ fsAllOk fsAllOk
      (by simp) (by simp) rfl rfl rfl rfl⟩

/-- C9 counterexample: with a two-item selection and a filesystem-context
construction that would fail, Copy returns the parameter error, not the
context-construction error — the selection is validated before the context
is resolved, contrary to the claimed order. -/
theorem copy_param_error_wins_over_context_error :
    (ItemMoveService.Copy ⟨"/s", ⟨[1, 2], []⟩, "/d"⟩ ⟨.error "context failed"⟩).resp.Code =
      CodeParamErr ∧
    CodeParamErr ≠ CodePolicyNotAllowed :=
  ⟨rfl, by decide⟩

/-- C9 (amended): Delete, Move and Archive resolve the filesystem context
first and return its error without delegating; Copy and Rename instead
validate the selection's cardinality before resolving the context, so when
both would fail, the parameter error (not the context error) is returned. -/
theorem operation_order_context_vs_validation (s : ItemService)
    (ms ms2 : ItemMoveService) (rs : ItemRenameService)
    (env : OpEnv) (aenv : ArchiveEnv) (c0 : Cache) (e e' : String)
    (henv : env.fsResult = .error e) (haenv : aenv.fsResult = .error e')
    (hm : ms2.Src.Dirs.length + ms2.Src.Items.length > 1)
    (hr : rs.Src.Dirs.length + rs.Src.Items.length > 1) :
    ItemService.Delete s env = ⟨serializerErr CodePolicyNotAllowed e, []⟩ ∧
    ItemMoveService.Move ms env = ⟨serializerErr CodePolicyNotAllowed e, []⟩ ∧
    (ItemService.Archive s aenv c0).outcome =
      some (serializerErr CodePolicyNotAllowed e') ∧
    (ItemService.Archive s aenv c0).calls = [] ∧
    (ItemMoveService.Copy ms2 env).resp = serializerParamErr "只能复制一个对象" ∧
    (ItemRenameService.Rename rs env).resp = serializerParamErr "只能操作一个对象" := by
  have hm' : ms2.Src.Items.length + ms2.Src.Dirs.length > 1 := by omega
  have hr' : rs.Src.Items.length + rs.Src.Dirs.length > 1 := by omega
  refine ⟨?_, ?_, ?_, ?_, ?_, ?_⟩
  · unfold ItemService.Delete
    rw [henv]
  · unfold ItemMoveService.Move
    rw [henv]
  · unfold ItemService.Archive
    rw [haenv]
  · unfold ItemService.Archive
    rw [haenv]
  · unfold ItemMoveService.Copy
    rw [if_pos hm']
  · unfold ItemRenameService.Rename
    rw [if_pos hr']

/-- C9 witness: the amended ordering evaluated on concrete requests. -/
theorem operation_order_context_vs_validation_witness :
    ((⟨.error "boom"⟩ : OpEnv).fsResult = .error "boom") ∧
    ((⟨.error "bang", .ok "https://site", 0, "k", true, 100, none⟩ :
        ArchiveEnv).fsResult = .error "bang") ∧
    ((⟨"/s", ⟨[1, 2], []⟩, "/d"⟩ : ItemMoveService).Src.Dirs.length +
      (⟨"/s", ⟨[1, 2], []⟩, "/d"⟩ : ItemMoveService).Src.Items.length > 1) ∧
    ((⟨⟨[3], [4, 5]⟩, "n"⟩ : ItemRenameService).Src.Dirs.length +
      (⟨⟨[3], [4, 5]⟩, "n"⟩ : ItemRenameService).Src.Items.length > 1) ∧
    (ItemService.Delete ⟨[7], []⟩ ⟨.error "boom"⟩ =
      ⟨serializerErr CodePolicyNotAllowed "boom", []⟩ ∧
     ItemMoveService.Move ⟨"/a", ⟨[8], []⟩, "/b"⟩ ⟨.error "boom"⟩ =
      ⟨serializerErr CodePolicyNotAllowed "boom", []⟩ ∧
     (ItemService.Archive ⟨[7], []⟩
        ⟨.error "bang", .ok "https://site", 0, "k", true, 100, none⟩ []).outcome =
       some (serializerErr CodePolicyNotAllowed "bang") ∧
     (ItemService.Archive ⟨[7], []⟩
        ⟨.error "bang", .ok "https://site", 0, "k", true, 100, none⟩ []).calls = [] ∧
     (ItemMoveService.Copy ⟨"/s", ⟨[1, 2], []⟩, "/d"⟩ ⟨.error "boom"⟩).resp =
       serializerParamErr "只能复制一个对象" ∧
     (ItemRenameService.Rename ⟨⟨[3], [4, 5]⟩, "n"⟩ ⟨.error "boom"⟩).resp =
       serializerParamErr "只能操作一个对象") :=
  ⟨rfl, rfl, by decide, by decide,
    operation_order_context_vs_validation ⟨[7], []⟩ ⟨"/a", ⟨[8], []⟩, "/b"⟩
      ⟨"/s", ⟨[1, 2], []⟩, "/d"⟩ ⟨⟨[3], [4, 5]⟩, "n"⟩ ⟨.error "boom"⟩
      ⟨.error "bang", .ok "https://site", 0, "k", true, 100, none⟩ [] "boom" "bang"
      rfl rfl (by decide) (by decide)⟩

/-- C10: Delete and Move perform no selection validation in this layer: on
the empty selection they still invoke the filesystem delegate with two
empty sets and never return a parameter error. -/
theorem delete_move_empty_selection_delegates (s : ItemService) (ms : ItemMoveService)
    (envD envM : OpEnv) (fsD fsM : FileSystem)
    (hd : s.Dirs = []) (hi : s.Items = [])
    (hd' : ms.Src.Dirs = []) (hi' : ms.Src.Items = [])
    (hfsD : envD.fsResult = .ok fsD) (hfsM : envM.fsResult = .ok fsM) :
    (ItemService.Delete s envD).calls = [.delete [] []] ∧
    (ItemService.Delete s envD).resp.Code ≠ CodeParamErr ∧
    (ItemMoveService.Move ms envM).calls = [.move [] [] ms.SrcDir ms.Dst] ∧
    (ItemMoveService.Move ms envM).resp.Code ≠ CodeParamErr := by
  obtain ⟨hc1, hc2⟩ := Delete_forwards s envD fsD hfsD
  obtain ⟨hc3, hc4⟩ := Move_forwards ms envM fsM hfsM
  rw [hd, hi] at hc1
  rw [hd', hi'] at hc3
  exact ⟨hc1, hc2, hc3, hc4⟩

/-- C10 witness: the empty selection delegated concretely. -/
theorem delete_move_empty_selection_delegates_witness :
    ((⟨[], []⟩ : ItemService).Dirs = []) ∧
    ((⟨[], []⟩ : ItemService).Items = []) ∧
    ((⟨"/a", ⟨[], []⟩, "/b"⟩ : ItemMoveService).Src.Dirs = []) ∧
    ((⟨"/a", ⟨[], []⟩, "/b"⟩ : ItemMoveService).Src.Items = []) ∧
    ((⟨.ok fsAllOk⟩ : OpEnv).fsResult = .ok fsAllOk) ∧
    ((ItemService.Delete ⟨[], []⟩ ⟨.ok fsAllOk⟩).calls = [.delete [] []] ∧
     (ItemService.Delete ⟨[], []⟩ ⟨.ok fsAllOk⟩).resp.Code ≠ CodeParamErr ∧
     (ItemMoveService.Move ⟨"/a", ⟨[], []⟩, "/b"⟩ ⟨.ok fsAllOk⟩).calls =
       [.move [] [] "/a" "/b"] ∧
     (ItemMoveService.Move ⟨"/a", ⟨[], []⟩, "/b"⟩ ⟨.ok fsAllOk⟩).resp.Code ≠ CodeParamErr) :=
  ⟨rfl, rfl, rfl, rfl, rfl,
    delete_move_empty_selection_delegates ⟨[], []⟩ ⟨"/a", ⟨[], []⟩, "/b"⟩
      ⟨.ok fsAllOk⟩ ⟨.ok fsAllOk⟩ fsAllOk fsAllOk rfl rfl rfl rfl rfl rfl⟩
